import Mathlib

/-!
Verification of the IMG-Restore restoration workflow (src/src/App.tsx).

The React component keeps its state in individual hooks
(`originalImage`, `restoredImage`, `isProcessing`, `error`,
`sliderPosition`, `quality`, `isColorized`, `artStyle`, `isDragging`);
we embed that as the record `AppState`.  The event handlers
(`handleFileUpload`, `handleRestore`, `handleReset`, `onMouseMove`)
become pure state-transition functions; the asynchronous
`handleRestore` is split into a synchronous start phase (everything up
to and including issuing the remote request) and a resolve phase
(everything that runs once the awaited response settles).  Machine
floats of the slider arithmetic are modelled over ℚ.
-/

/-- The `quality` hook: `'Standard' | 'High' | 'Ultra'` (App.tsx line 32). -/
inductive Quality where
  | Standard
  | High
  | Ultra
deriving DecidableEq, Repr

/-- The `artStyle` hook: `'Realistic' | 'OilPainting'` (App.tsx line 34). -/
inductive ArtStyle where
  | Realistic
  | OilPainting
deriving DecidableEq, Repr

/-- The component's state hooks (App.tsx lines 27-35), gathered into one record.
`sliderPosition` is a JS number, modelled over ℚ. -/
structure AppState where
  originalImage : Option String
  restoredImage : Option String
  isProcessing : Bool
  error : Option String
  sliderPosition : ℚ
  quality : Quality
  isColorized : Bool
  artStyle : ArtStyle
  isDragging : Bool
deriving DecidableEq, Repr

/-- The `useState` initial values (App.tsx lines 27-35). -/
def initialState : AppState :=
  { originalImage := none
    restoredImage := none
    isProcessing := false
    error := none
    sliderPosition := 50
    quality := Quality.Standard
    isColorized := true
    artStyle := ArtStyle.Realistic
    isDragging := false }

/-- Modelled from the spec: the `WorkflowState` tagged variant of §3.  The
code has no such explicit variant; we derive it from the state hooks the way
the UI renders them: no original → `Empty`; `isProcessing` → `Processing`;
otherwise an error → `Failed`, a restored image → `Restored`, else `Loaded`. -/
inductive WorkflowState where
  | Empty
  | Loaded (original : String)
  | Processing (original : String)
  | Restored (original restored : String)
  | Failed (original errorMessage : String)
deriving DecidableEq, Repr

/-- Derivation of the spec's workflow state from the component's hooks. -/
def workflowState (s : AppState) : WorkflowState :=
  match s.originalImage with
  | none => WorkflowState.Empty
  | some o =>
    if s.isProcessing then WorkflowState.Processing o
    else
      match s.error with
      | some e => WorkflowState.Failed o e
      | none =>
        match s.restoredImage with
        | some r => WorkflowState.Restored o r
        | none => WorkflowState.Loaded o

/-- The error message set on oversized uploads (App.tsx line 44). -/
def uploadTooLargeMessage : String := "File quá lớn. Vui lòng chọn ảnh dưới 10MB."

/-- The error thrown when no image part is found (App.tsx line 117). -/
def noImageMessage : String := "Không nhận được ảnh kết quả từ AI."

/-- The fallback error message of the catch block (App.tsx line 121). -/
def fallbackErrorMessage : String := "Đã có lỗi xảy ra trong quá trình xử lý."

/-- `handleFileUpload` (App.tsx lines 40-55) with a file of `fileSize` bytes
present: rejects files over `10 * 1024 * 1024` bytes by setting the error;
otherwise (the `FileReader.onload` callback) stores the data URL as the
original image and clears the restored image and the error. -/
def handleFileUpload (s : AppState) (fileSize : Nat) (dataUrl : String) : AppState :=
  if fileSize > 10 * 1024 * 1024 then
    { s with error := some uploadTooLargeMessage }
  else
    { s with originalImage := some dataUrl, restoredImage := none, error := none }

/-- `colorInstruction` (App.tsx lines 71-73). -/
def colorInstruction (isColorized : Bool) : String :=
  if isColorized then
    "Colorize it with natural skin tones and realistic colors."
  else
    "Keep the photo in its original black and white or grayscale tones. Do not add any new colors."

/-- `styleInstruction` (App.tsx lines 75-77): empty for `Realistic`. -/
def styleInstruction (artStyle : ArtStyle) : String :=
  match artStyle with
  | ArtStyle.OilPainting =>
    "Transform this photo into a beautiful oil painting. Use rich textures, visible brushstrokes, and vibrant colors typical of a classic oil on canvas masterpiece. Maintain the composition but render it in an artistic, painterly style."
  | ArtStyle.Realistic => ""

/-- `preservationInstruction` (App.tsx line 79). -/
def preservationInstruction : String :=
  "Strictly preserve the original facial features, head shape, hair texture, and shoulder lines. Do not alter the person's identity or physical structure."

/-- The inline colour text of the `Ultra` branch (App.tsx line 86). -/
def ultraColorInstruction (isColorized : Bool) : String :=
  if isColorized then
    "Apply sophisticated colorization with multi-layered skin tones, realistic textures, and cinematic color grading."
  else
    "Maintain the original black and white aesthetic with enhanced contrast and clarity."

/-- The prompt construction of `handleRestore` (App.tsx lines 70-87): one
template literal per quality tier, each interpolating the colour, style and
preservation instructions with single spaces between the interpolation
slots. -/
def buildPrompt (quality : Quality) (isColorized : Bool) (artStyle : ArtStyle) : String :=
  match quality with
  | Quality.Standard =>
    "Restore this old photo, remove scratches, noise, and damage. " ++ colorInstruction isColorized ++ " " ++ styleInstruction artStyle ++ " " ++ preservationInstruction ++ " High quality, sharp details, professional restoration."
  | Quality.High =>
    "Restore this old photo with maximum detail, remove all scratches, noise, and damage. " ++ colorInstruction isColorized ++ " " ++ styleInstruction artStyle ++ " " ++ preservationInstruction ++ " High quality, sharp details, professional restoration."
  | Quality.Ultra =>
    "Perform an ultra-high-definition restoration of this old photograph. Meticulously remove every scratch, dust particle, and blemish. Reconstruct missing details with AI precision. " ++ ultraColorInstruction isColorized ++ " " ++ styleInstruction artStyle ++ " " ++ preservationInstruction ++ " The output must be sharp, noise-free, and look like a modern high-resolution photograph while preserving the original essence."

/-- The text each quality tier's template puts before the colour fragment. -/
def openFragment (quality : Quality) : String :=
  match quality with
  | Quality.Standard => "Restore this old photo, remove scratches, noise, and damage."
  | Quality.High => "Restore this old photo with maximum detail, remove all scratches, noise, and damage."
  | Quality.Ultra => "Perform an ultra-high-definition restoration of this old photograph. Meticulously remove every scratch, dust particle, and blemish. Reconstruct missing details with AI precision."

/-- The colour fragment each tier interpolates: the shared
`colorInstruction` for `Standard`/`High`, the inline conditional for
`Ultra`. -/
def colorFragment (quality : Quality) (isColorized : Bool) : String :=
  match quality with
  | Quality.Ultra => ultraColorInstruction isColorized
  | _ => colorInstruction isColorized

/-- The text each quality tier's template puts after the preservation
fragment. -/
def closeFragment (quality : Quality) : String :=
  match quality with
  | Quality.Standard => "High quality, sharp details, professional restoration."
  | Quality.High => "High quality, sharp details, professional restoration."
  | Quality.Ultra => "The output must be sharp, noise-free, and look like a modern high-resolution photograph while preserving the original essence."

theorem strAppendAssoc (a b c : String) : a ++ b ++ c = a ++ (b ++ c) := by
  apply String.ext
  simp [String.data_append, List.append_assoc]

/-- Shared decomposition: every built prompt is opening text, colour
fragment, style fragment, preservation fragment and closing text, in that
order, each pair separated by one space character. -/
theorem buildPrompt_decomp (q : Quality) (c : Bool) (st : ArtStyle) :
    buildPrompt q c st =
      openFragment q ++ " " ++ colorFragment q c ++ " " ++ styleInstruction st ++ " " ++
        preservationInstruction ++ " " ++ closeFragment q := by
  cases q
  case Standard =>
    have h1 : ("Restore this old photo, remove scratches, noise, and damage. " : String)
        = "Restore this old photo, remove scratches, noise, and damage." ++ " " := rfl
    have h2 : (" High quality, sharp details, professional restoration." : String)
        = " " ++ "High quality, sharp details, professional restoration." := rfl
    simp only [buildPrompt, openFragment, colorFragment, closeFragment, h1, h2, strAppendAssoc]
  case High =>
    have h1 : ("Restore this old photo with maximum detail, remove all scratches, noise, and damage. " : String)
        = "Restore this old photo with maximum detail, remove all scratches, noise, and damage." ++ " " := rfl
    have h2 : (" High quality, sharp details, professional restoration." : String)
        = " " ++ "High quality, sharp details, professional restoration." := rfl
    simp only [buildPrompt, openFragment, colorFragment, closeFragment, h1, h2, strAppendAssoc]
  case Ultra =>
    have h1 : ("Perform an ultra-high-definition restoration of this old photograph. Meticulously remove every scratch, dust particle, and blemish. Reconstruct missing details with AI precision. " : String)
        = "Perform an ultra-high-definition restoration of this old photograph. Meticulously remove every scratch, dust particle, and blemish. Reconstruct missing details with AI precision." ++ " " := rfl
    have h2 : (" The output must be sharp, noise-free, and look like a modern high-resolution photograph while preserving the original essence." : String)
        = " " ++ "The output must be sharp, noise-free, and look like a modern high-resolution photograph while preserving the original essence." := rfl
    simp only [buildPrompt, openFragment, colorFragment, closeFragment, h1, h2, strAppendAssoc]

/-- The `inlineData` of a response part: base64 payload plus media type. -/
structure InlineData where
  data : String
  mimeType : String
deriving DecidableEq, Repr

/-- One part of a remote-service response candidate: either inline image
data or text (App.tsx lines 107-113 read `part.inlineData`). -/
structure GenPart where
  inlineData : Option InlineData
  text : Option String
deriving DecidableEq, Repr

/-- How one awaited `generateContent` call settles: a reply whose parts are
`response.candidates?.[0]?.content?.parts || []`, or a rejection whose
error message feeds the catch block. -/
inductive RestoreOutcome where
  | reply (parts : List GenPart)
  | remoteFailure (message : String)
deriving DecidableEq, Repr

/-- The request `handleRestore` sends (App.tsx lines 89-104): one image
part (base64 payload + media type) and one text part (the prompt). -/
structure RestoreRequest where
  imageData : String
  imageMimeType : String
  promptText : String
deriving DecidableEq, Repr

/-- `originalImage.split(',')[1]` (App.tsx line 67); an out-of-range index
(JS `undefined`) is modelled as the empty string. -/
def dataUrlBase64 (u : String) : String := (u.splitOn ",").getD 1 ""

/-- `originalImage.split(';')[0].split(':')[1]` (App.tsx line 68). -/
def dataUrlMime (u : String) : String :=
  (((u.splitOn ";").getD 0 "").splitOn ":").getD 1 ""

/-- The synchronous prefix of `handleRestore` (App.tsx lines 57-104): the
`if (!originalImage) return` guard, then `setIsProcessing(true)`,
`setError(null)`, prompt construction from the current option hooks, and
the remote request.  Returns the updated state and the issued request
(`none` when the guard returned early and no call was made).  Note the
guard checks only `originalImage`; it does not consult `isProcessing`. -/
def handleRestoreStart (s : AppState) : AppState × Option RestoreRequest :=
  match s.originalImage with
  | none => (s, none)
  | some orig =>
    ({ s with isProcessing := true, error := none },
     some { imageData := dataUrlBase64 orig
            imageMimeType := dataUrlMime orig
            promptText := buildPrompt s.quality s.isColorized s.artStyle })

/-- The response scan of `handleRestore` (App.tsx lines 106-114): walk the
parts in order and take `inlineData.data` of the first part whose
`inlineData` is present (the loop `break`s there), ignoring every other
part. -/
def scanParts : List GenPart → Option String
  | [] => none
  | p :: rest =>
    match p.inlineData with
    | some d => some d.data
    | none => scanParts rest

/-- The continuation of `handleRestore` after the await settles (App.tsx
lines 106-124): on a reply, the first inline payload becomes the restored
image behind a fixed `data:image/png;base64,` header; if no part carries
inline data the thrown `noImageMessage` lands in the catch block and is
stored as the error; a rejected call stores its message (or the fallback
when the message is JS-falsy, i.e. empty).  The `finally` block clears
`isProcessing` on every path. -/
def handleRestoreResolve (s : AppState) (out : RestoreOutcome) : AppState :=
  match out with
  | RestoreOutcome.reply parts =>
    match scanParts parts with
    | some d =>
      { s with restoredImage := some ("data:image/png;base64," ++ d), isProcessing := false }
    | none =>
      { s with error := some noImageMessage, isProcessing := false }
  | RestoreOutcome.remoteFailure msg =>
    { s with error := some (if msg = "" then fallbackErrorMessage else msg), isProcessing := false }

/-- A whole `handleRestore` invocation running uninterrupted from start to
settlement, parameterised by how the single remote call settles. -/
def handleRestoreRun (s : AppState) (out : RestoreOutcome) : AppState :=
  match s.originalImage with
  | none => s
  | some _ => handleRestoreResolve (handleRestoreStart s).1 out

/-- `handleReset` (App.tsx lines 137-142): clears both images and the
error and puts the slider back at 50.  It touches nothing else. -/
def handleReset (s : AppState) : AppState :=
  { s with originalImage := none
           restoredImage := none
           error := none
           sliderPosition := 50 }

/-- The restore buttons (App.tsx lines 408-415 and 427-434) carry
`disabled={isProcessing}`: a disabled button dispatches no click, so a
restore click reaches `handleRestore` only when `isProcessing` is false. -/
def clickRestore (s : AppState) : AppState × Option RestoreRequest :=
  if s.isProcessing then (s, none) else handleRestoreStart s

/-- The reset button (App.tsx lines 435-442) carries
`disabled={isProcessing}` as well: a reset click reaches `handleReset`
only when `isProcessing` is false. -/
def clickReset (s : AppState) : AppState :=
  if s.isProcessing then s else handleReset s

/-- The clamp `Math.min(Math.max(position, 0), 100)` (App.tsx line 151). -/
def clampPosition (p : ℚ) : ℚ := min (max p 0) 100

/-- `((x - rect.left) / rect.width) * 100`, clamped (App.tsx lines
149-151), over ℚ.  Note ℚ division by zero yields 0 where JS would yield
`NaN` or `±Infinity`; the zero-width theorems below only use this value to
show the move is not a no-op. -/
def computePosition (eventX containerLeft containerWidth : ℚ) : ℚ :=
  clampPosition ((eventX - containerLeft) / containerWidth * 100)

/-- `onMouseMove` (App.tsx lines 144-152) with the container's bounding
rectangle supplied: bail out unless a drag session is active (the
`!containerRef.current` bail-out is the rectangle's existence), otherwise
store the clamped position.  There is no guard on `rect.width`. -/
def onMouseMove (s : AppState) (eventX containerLeft containerWidth : ℚ) : AppState :=
  if s.isDragging = false then s
  else { s with sliderPosition := computePosition eventX containerLeft containerWidth }

/-- A state in the `Loaded` stage: an original present, nothing else. -/
def loadedState : AppState :=
  { initialState with originalImage := some "data:image/jpeg;base64,AAAA" }

/-- A state in the `Processing` stage with a leftover error. -/
def processingState : AppState :=
  { initialState with
      originalImage := some "data:image/jpeg;base64,AAAA"
      isProcessing := true
      error := some "previous failure" }

/-- A mid-drag state with the slider at its initial 50. -/
def dragState : AppState :=
  { initialState with
      originalImage := some "data:image/jpeg;base64,AAAA"
      restoredImage := some "data:image/png;base64,QUJD"
      isDragging := true }

/-- A response part carrying inline image data. -/
def mkImagePart (d m : String) : GenPart :=
  { inlineData := some { data := d, mimeType := m }, text := none }

/-- A response part carrying only text. -/
def mkTextPart (t : String) : GenPart :=
  { inlineData := none, text := some t }

theorem handleRestoreResolve_isProcessing (s : AppState) (out : RestoreOutcome) :
    (handleRestoreResolve s out).isProcessing = false := by
  cases out with
  | reply parts => cases h : scanParts parts <;> simp [handleRestoreResolve, h]
  | remoteFailure msg => simp [handleRestoreResolve]

/-- C8: `reset()` is valid from every state and always produces the same
result: the workflow state becomes `Empty`, both image assets and the error
are cleared, and the slider position returns to 50. -/
theorem reset_always_empties (s : AppState) :
    (handleReset s).originalImage = none ∧
    (handleReset s).restoredImage = none ∧
    (handleReset s).error = none ∧
    (handleReset s).sliderPosition = 50 ∧
    workflowState (handleReset s) = WorkflowState.Empty :=
  ⟨rfl, rfl, rfl, rfl, rfl⟩

/-- C6: during a drag session, for any event abscissa and any container
rectangle of positive width, the stored slider position lies in [0,100];
it is 0 whenever the event is at or left of the container's left edge and
100 whenever it is at or right of its right edge. -/
theorem slider_position_bounds (s : AppState) (x l w : ℚ)
    (hd : s.isDragging = true) (hw : 0 < w) :
    (onMouseMove s x l w).sliderPosition ∈ Set.Icc (0 : ℚ) 100 ∧
    (x ≤ l → (onMouseMove s x l w).sliderPosition = 0) ∧
    (l + w ≤ x → (onMouseMove s x l w).sliderPosition = 100) := by
  have hmove : (onMouseMove s x l w).sliderPosition
      = clampPosition ((x - l) / w * 100) := by
    simp [onMouseMove, hd, computePosition]
  refine ⟨?_, ?_, ?_⟩ <;> rw [hmove]
  · rw [Set.mem_Icc]
    unfold clampPosition
    exact ⟨le_min (le_max_right _ _) (by norm_num), min_le_right _ _⟩
  · intro hx
    have h1 : x - l ≤ 0 := sub_nonpos.mpr hx
    have h2 : (x - l) / w ≤ 0 := div_nonpos_of_nonpos_of_nonneg h1 hw.le
    have h3 : (x - l) / w * 100 ≤ 0 := by linarith
    unfold clampPosition
    rw [max_eq_right h3, min_eq_left (by norm_num : (0:ℚ) ≤ 100)]
  · intro hx
    have h2 : (1 : ℚ) ≤ (x - l) / w := (le_div_iff₀ hw).mpr (by linarith)
    have h3 : (100 : ℚ) ≤ (x - l) / w * 100 := by linarith
    have h4 : (0 : ℚ) ≤ (x - l) / w * 100 := by linarith
    unfold clampPosition
    rw [max_eq_left h4, min_eq_right h3]

/-- Witness for C6 at a concrete drag state and rectangle. -/
theorem slider_position_bounds_witness :
    dragState.isDragging = true ∧ (0 : ℚ) < 10 ∧
    (onMouseMove dragState 5 0 10).sliderPosition ∈ Set.Icc (0 : ℚ) 100 :=
  ⟨rfl, by norm_num, (slider_position_bounds dragState 5 0 10 rfl (by norm_num)).1⟩

/-- C7: `onMouseMove` has no guard on `rect.width`.  With a zero-width
rectangle during a drag the move is not a no-op: the stored position
changes (here from 50 to the clamped quotient; JS itself would compute
`(5 - 0) / 0 * 100 = Infinity`, clamped to 100, and `0 / 0` would store
`NaN`).  The claim that a zero-width move leaves the position unchanged
fails on this code. -/
theorem zero_width_move_not_noop :
    dragState.sliderPosition = 50 ∧
    (onMouseMove dragState 5 0 0).sliderPosition = 0 ∧
    onMouseMove dragState 5 0 0 ≠ dragState := by
  refine ⟨rfl, ?_, ?_⟩
  · simp [onMouseMove, dragState, initialState, computePosition, clampPosition]
  · intro h
    have := congrArg AppState.sliderPosition h
    simp [onMouseMove, dragState, initialState, computePosition, clampPosition] at this

/-- C10: however the single remote call settles — an image reply, an empty
reply, or a rejection — a `handleRestore` run that passed its guard ends
with `isProcessing = false` (the `finally` block), so the workflow never
stays stuck in `Processing`. -/
theorem restore_always_clears_processing (s : AppState) (out : RestoreOutcome)
    (h : s.originalImage.isSome = true) :
    (handleRestoreRun s out).isProcessing = false := by
  cases ho : s.originalImage with
  | none => rw [ho] at h; simp at h
  | some o =>
    simp only [handleRestoreRun, ho]
    exact handleRestoreResolve_isProcessing _ _

/-- Witness for C10 on a loaded state whose remote call is rejected. -/
theorem restore_always_clears_processing_witness :
    (handleRestoreRun loadedState (RestoreOutcome.remoteFailure "network down")).isProcessing
      = false :=
  restore_always_clears_processing loadedState (RestoreOutcome.remoteFailure "network down") rfl

/-- C1 counterexample: `handleRestore`'s guard checks only `originalImage`,
never `isProcessing`.  Invoked directly on a `Processing` state with an
original present, it issues a (second) remote request and clears the
pending error, so the invocation is neither rejected nor effect-free. -/
theorem restore_during_processing_issues_second_call :
    processingState.isProcessing = true ∧
    processingState.originalImage.isSome = true ∧
    (handleRestoreStart processingState).2.isSome = true ∧
    (handleRestoreStart processingState).1.error ≠ processingState.error := by
  refine ⟨rfl, rfl, rfl, ?_⟩
  decide

/-- C1 amended: the restore buttons are `disabled={isProcessing}`, so a
restore click while `Processing` never reaches `handleRestore`: the state
is untouched and no remote request is issued.  `handleRestore` itself has
no `isProcessing` guard. -/
theorem click_restore_ignored_while_processing (s : AppState)
    (h : s.isProcessing = true) :
    clickRestore s = (s, none) := by
  simp [clickRestore, h]

/-- Witness for the amended C1 at a concrete `Processing` state. -/
theorem click_restore_ignored_while_processing_witness :
    clickRestore processingState = (processingState, none) :=
  click_restore_ignored_while_processing processingState rfl

/-- C2 counterexample: an oversized upload records the rejection in the
`error` hook, so from a `Loaded` state the derived workflow state moves to
`Failed` — it is not left unchanged as the claim states. -/
theorem upload_too_large_alters_workflow_state :
    workflowState loadedState = WorkflowState.Loaded "data:image/jpeg;base64,AAAA" ∧
    workflowState (handleFileUpload loadedState (10 * 1024 * 1024 + 1) "data:image/png;base64,BBBB")
      = WorkflowState.Failed "data:image/jpeg;base64,AAAA" uploadTooLargeMessage ∧
    workflowState (handleFileUpload loadedState (10 * 1024 * 1024 + 1) "data:image/png;base64,BBBB")
      ≠ workflowState loadedState := by
  refine ⟨by decide, by decide, by decide⟩

/-- C2 amended: an upload whose payload exceeds 10 MiB is rejected leaving
the original image, the restored image, the processing flag and the slider
untouched; the rejection is surfaced by setting the error message, so the
derived workflow state is unchanged exactly in the no-original (`Empty`)
case in which the upload view is reachable, while a `Loaded` state shows
as `Failed`. -/
theorem upload_too_large_preserves_assets (s : AppState) (sz : Nat) (d : String)
    (h : sz > 10 * 1024 * 1024) :
    (handleFileUpload s sz d).originalImage = s.originalImage ∧
    (handleFileUpload s sz d).restoredImage = s.restoredImage ∧
    (handleFileUpload s sz d).isProcessing = s.isProcessing ∧
    (handleFileUpload s sz d).sliderPosition = s.sliderPosition ∧
    (handleFileUpload s sz d).error = some uploadTooLargeMessage ∧
    (s.originalImage = none →
      workflowState (handleFileUpload s sz d) = workflowState s) := by
  have he : handleFileUpload s sz d = { s with error := some uploadTooLargeMessage } := by
    simp [handleFileUpload, h]
  rw [he]
  refine ⟨rfl, rfl, rfl, rfl, rfl, ?_⟩
  intro h0
  simp [workflowState, h0]

/-- Witness for the amended C2 on a concrete oversized upload. -/
theorem upload_too_large_preserves_assets_witness :
    (handleFileUpload loadedState 10485761 "data:image/png;base64,BBBB").originalImage
      = loadedState.originalImage :=
  (upload_too_large_preserves_assets loadedState 10485761 "data:image/png;base64,BBBB"
    (by decide)).1

/-- C3 counterexample: there is no generation stamp.  Start a restoration
from a loaded state, reset mid-flight (state becomes `Empty`), then let the
stale reply resolve: its payload is written into `restoredImage` — the
stale result is applied, not discarded, leaving a restored image with no
original. -/
theorem stale_response_applied_after_reset :
    workflowState (handleReset (handleRestoreStart loadedState).1) = WorkflowState.Empty ∧
    (handleRestoreResolve (handleReset (handleRestoreStart loadedState).1)
        (RestoreOutcome.reply [mkImagePart "WFla" "image/png"])).restoredImage
      = some ("data:image/png;base64," ++ "WFla") ∧
    (handleRestoreResolve (handleReset (handleRestoreStart loadedState).1)
        (RestoreOutcome.reply [mkImagePart "WFla" "image/png"])).originalImage
      = none :=
  ⟨rfl, rfl, rfl⟩

/-- C3 amended: reset cannot be requested during `Processing` through the
UI — the reset button is `disabled={isProcessing}`, so the click is
ignored; and if `handleReset` is invoked directly while a call is in
flight, the stale reply is still applied when it settles: its first inline
payload becomes the restored image. -/
theorem reset_gated_during_processing (s : AppState) (h : s.isProcessing = true) :
    clickReset s = s ∧
    ∀ (d m : String) (rest : List GenPart),
      (handleRestoreResolve (handleReset s)
          (RestoreOutcome.reply (mkImagePart d m :: rest))).restoredImage
        = some ("data:image/png;base64," ++ d) := by
  constructor
  · simp [clickReset, h]
  · intro d m rest
    rfl

/-- Witness for the amended C3 at a concrete `Processing` state. -/
theorem reset_gated_during_processing_witness :
    clickReset processingState = processingState :=
  (reset_gated_during_processing processingState rfl).1

theorem scanParts_eq_none_iff (parts : List GenPart) :
    scanParts parts = none ↔ ∀ p ∈ parts, p.inlineData = none := by
  induction parts with
  | nil => simp [scanParts]
  | cons p rest ih =>
    cases hp : p.inlineData with
    | some d => simp [scanParts, hp]
    | none => simp [scanParts, hp, ih]

theorem scanParts_first_match (pre : List GenPart) (p : GenPart) (post : List GenPart)
    (hpre : ∀ q ∈ pre, q.inlineData = none) (d : InlineData)
    (hp : p.inlineData = some d) :
    scanParts (pre ++ p :: post) = some d.data := by
  induction pre with
  | nil => simp [scanParts, hp]
  | cons q rest ih =>
    have hq : q.inlineData = none := hpre q (by simp)
    have : scanParts (rest ++ p :: post) = some d.data :=
      ih fun r hr => hpre r (by simp [hr])
    simpa [scanParts, hq] using this

/-- C5: resolving a reply leaves the original image untouched; whenever the
part list splits as an inline-data-free head followed by a part carrying
inline data, that earlier part's payload — behind the fixed
`data:image/png;base64,` header, whatever media type the service declared —
becomes the restored image and the error is untouched; the scan comes up
empty exactly when no part carries inline data, and in that case the
`noImageMessage` error is recorded and the restored image is untouched. -/
theorem restore_scan_first_image (s : AppState) (parts : List GenPart) :
    (handleRestoreResolve s (RestoreOutcome.reply parts)).originalImage = s.originalImage ∧
    (∀ pre p post d, parts = pre ++ p :: post →
       (∀ q ∈ pre, q.inlineData = none) → p.inlineData = some d →
       (handleRestoreResolve s (RestoreOutcome.reply parts)).restoredImage
           = some ("data:image/png;base64," ++ d.data) ∧
       (handleRestoreResolve s (RestoreOutcome.reply parts)).error = s.error) ∧
    (scanParts parts = none ↔ ∀ p ∈ parts, p.inlineData = none) ∧
    (scanParts parts = none →
       (handleRestoreResolve s (RestoreOutcome.reply parts)).error = some noImageMessage ∧
       (handleRestoreResolve s (RestoreOutcome.reply parts)).restoredImage
         = s.restoredImage) := by
  refine ⟨?_, ?_, scanParts_eq_none_iff parts, ?_⟩
  · cases h : scanParts parts <;> simp [handleRestoreResolve, h]
  · intro pre p post d hsplit hpre hp
    have hscan : scanParts parts = some d.data := by
      rw [hsplit]; exact scanParts_first_match pre p post hpre d hp
    simp [handleRestoreResolve, hscan]
  · intro h
    simp [handleRestoreResolve, h]

/-- Witness for C5: a text part followed by a WEBP-typed image part; the
image payload is returned behind the PNG header. -/
theorem restore_scan_first_image_witness :
    (handleRestoreResolve loadedState
        (RestoreOutcome.reply [mkTextPart "note", mkImagePart "QUJD" "image/webp"])).restoredImage
      = some ("data:image/png;base64," ++ "QUJD") :=
  ((restore_scan_first_image loadedState
      [mkTextPart "note", mkImagePart "QUJD" "image/webp"]).2.1
    [mkTextPart "note"] (mkImagePart "QUJD" "image/webp") []
    { data := "QUJD", mimeType := "image/webp" } rfl (by decide) rfl).1

/-- C9: for every combination of quality, colorization and style options
the built prompt contains the identity-preservation fragment. -/
theorem prompt_contains_preservation (q : Quality) (c : Bool) (st : ArtStyle) :
    ∃ pre post, buildPrompt q c st = pre ++ (preservationInstruction ++ post) := by
  refine ⟨openFragment q ++ " " ++ colorFragment q c ++ " " ++ styleInstruction st ++ " ",
    " " ++ closeFragment q, ?_⟩
  rw [buildPrompt_decomp q c st]
  simp only [strAppendAssoc]

/-- Modelled from the spec for comparison in claim C4: the prompt the spec
describes — the four fragments (a) quality base, (b) colorization,
(c) style, (d) identity preservation, joined with single spaces, an empty
fragment contributing no whitespace and nothing following (d). -/
def specPrompt (q : Quality) (c : Bool) (st : ArtStyle) : String :=
  String.intercalate " "
    (([openFragment q, colorFragment q c, styleInstruction st,
       preservationInstruction]).filter (fun f => !(f == "")))

/-- C4 counterexample: at `{Standard, colorize, Realistic}` the code's
prompt carries a double space where the empty style fragment was
interpolated and a closing sentence after the identity-preservation
fragment, so it differs from the spec-shaped prompt. -/
theorem prompt_not_spec_shape :
    buildPrompt Quality.Standard true ArtStyle.Realistic
      = "Restore this old photo, remove scratches, noise, and damage. Colorize it with natural skin tones and realistic colors.  Strictly preserve the original facial features, head shape, hair texture, and shoulder lines. Do not alter the person's identity or physical structure. High quality, sharp details, professional restoration." ∧
    specPrompt Quality.Standard true ArtStyle.Realistic
      = "Restore this old photo, remove scratches, noise, and damage. Colorize it with natural skin tones and realistic colors. Strictly preserve the original facial features, head shape, hair texture, and shoulder lines. Do not alter the person's identity or physical structure." ∧
    buildPrompt Quality.Standard true ArtStyle.Realistic
      ≠ specPrompt Quality.Standard true ArtStyle.Realistic := by
  set_option maxRecDepth 40000 in
  refine ⟨by decide, by decide, by decide⟩

/-- C4 amended: the prompt is the quality tier's opening text, the
colorization fragment, the style fragment and the identity-preservation
fragment in that order, each pair separated by one space character — so an
empty style fragment leaves a double space — followed by one more space and
a quality-dependent closing fragment after the identity-preservation
fragment. -/
theorem prompt_fragment_order (q : Quality) (c : Bool) (st : ArtStyle) :
    buildPrompt q c st =
      openFragment q ++ " " ++ colorFragment q c ++ " " ++ styleInstruction st ++ " " ++
        preservationInstruction ++ " " ++ closeFragment q ∧
    (st = ArtStyle.Realistic → styleInstruction st = "") := by
  refine ⟨buildPrompt_decomp q c st, ?_⟩
  intro h
  subst h
  rfl

/-- Witness for the amended C4 at concrete options. -/
theorem prompt_fragment_order_witness :
    buildPrompt Quality.Standard true ArtStyle.Realistic =
      openFragment Quality.Standard ++ " " ++ colorFragment Quality.Standard true ++ " " ++
        styleInstruction ArtStyle.Realistic ++ " " ++ preservationInstruction ++ " " ++
        closeFragment Quality.Standard ∧
    styleInstruction ArtStyle.Realistic = "" :=
  ⟨(prompt_fragment_order Quality.Standard true ArtStyle.Realistic).1,
   (prompt_fragment_order Quality.Standard true ArtStyle.Realistic).2 rfl⟩

/-- Witness for C8 at a concrete state. -/
theorem reset_always_empties_witness :
    (handleReset processingState).originalImage = none ∧
    workflowState (handleReset processingState) = WorkflowState.Empty :=
  ⟨(reset_always_empties processingState).1,
   (reset_always_empties processingState).2.2.2.2⟩

/-- Witness for C9 at concrete options. -/
theorem prompt_contains_preservation_witness :
    ∃ pre post, buildPrompt Quality.High false ArtStyle.OilPainting
      = pre ++ (preservationInstruction ++ post) :=
  prompt_contains_preservation Quality.High false ArtStyle.OilPainting
